import Mathlib

/-!
Verification of the `hardlog` development-time console logger.

The repository's public facade (`index.ts`, the `log` object) and the type
declarations (`types.ts`: `LoggerConfig`, `RuntimeEnvironment`, `LogLevel`)
are embedded from the source.  The logger core (`logger.ts`: the `Logger`
singleton, `detectEnvironment`, `isProductionMode` and the two style tables)
is not part of the available source tree, so those definitions are modelled
from the specification and marked as such in their doc comments.

Stateful code is embedded by explicit state passing: the process-wide
`Logger` singleton state is a `LoggerState` value threaded through each
call, ambient platform globals are a `HostEnv` value, and a level method
returns the list of console writes it performs.  "May throw" is embedded
as `Except InternalFault`; the public methods catch and discard faults.
-/

/-- Log level type, from `types.ts`:
`type LogLevel = 'success' | 'error' | 'warn' | 'info'`. -/
inductive LogLevel where
  | success
  | error
  | warn
  | info
deriving DecidableEq, BEq, Repr

/-- Runtime environment type, from `types.ts`:
`type RuntimeEnvironment = 'node' | 'browser' | 'unknown'`. -/
inductive RuntimeEnvironment where
  | node
  | browser
  | unknown
deriving DecidableEq, Repr

/-- Configuration options for the logger, from `types.ts`:
both fields are optional (`enabled?: boolean`, `showTimestamp?: boolean`),
embedded as `Option Bool` where `none` means the field was omitted. -/
structure LoggerConfig where
  enabled : Option Bool
  showTimestamp : Option Bool
deriving DecidableEq, Repr

/-- Modelled from the spec: the mutable state of the process-wide Logger
singleton, "holding the current LoggerConfig" — an enabled flag and a
timestamp flag. -/
structure LoggerState where
  enabled : Bool
  showTimestamp : Bool
deriving DecidableEq, Repr

/-- Modelled from the spec: the server-style global `process` object; its
`env` field is the environment-variable map when a usable one exists
(`none` when `process.env` is unusable/absent). -/
structure ProcessGlobal where
  env : Option (List (String × String))
deriving DecidableEq, Repr

/-- Modelled from the spec: the ambient platform globals a call can observe.
`process = none` means the server-style global is absent; `window` and
`document` record the presence of the browser-style globals;
`consoleFaults` models a platform console sink whose write throws;
`now` is the clock reading already rendered as text. -/
structure HostEnv where
  process : Option ProcessGlobal
  window : Bool
  document : Bool
  consoleFaults : Bool
  now : String
deriving DecidableEq, Repr

/-- Modelled from the spec: the guarded probe "a server-style global process
object with a usable environment-variable map exists"; absence of a global
is a negative signal, not an error. -/
def hasUsableProcess (h : HostEnv) : Bool :=
  match h.process with
  | some p => p.env.isSome
  | none => false

/-- Modelled from the spec (`logger.ts` is missing from the source tree):
`detectEnvironment() → RuntimeEnvironment`.  Decision policy: server-style
process global with usable env map → node; else browser-style
window/document pair → browser; else unknown.  Total (never throws),
deterministic in the observed globals. -/
def detectEnvironment (h : HostEnv) : RuntimeEnvironment :=
  if hasUsableProcess h then RuntimeEnvironment.node
  else if h.window && h.document then RuntimeEnvironment.browser
  else RuntimeEnvironment.unknown

/-- Modelled from the spec: the value of the environment variable
conventionally named NODE_ENV, `none` when absent or when there is no
usable environment-variable map. -/
def nodeEnvValue (h : HostEnv) : Option String :=
  match h.process with
  | some p =>
    match p.env with
    | some m => m.lookup "NODE_ENV"
    | none => none
  | none => none

/-- Modelled from the spec: `isProductionMode() → boolean`, true when the
server-style environment variable NODE_ENV equals "production"; false if
that variable is absent, unset, or the runtime is not server-like. -/
def isProductionMode (h : HostEnv) : Bool :=
  match detectEnvironment h with
  | RuntimeEnvironment.node => nodeEnvValue h == some "production"
  | _ => false

/-- Modelled from the spec: the Logger state "created once at process
start": enabled defaults to true unless the detected execution mode is
production; showTimestamp defaults to false. -/
def defaultLoggerState (h : HostEnv) : LoggerState :=
  { enabled := !(isProductionMode h), showTimestamp := false }

/-- Modelled from the spec: a terminal style row
`{ symbol, label, colorCode }` keyed by `LogLevel`. -/
structure AnsiStyleRow where
  symbol : String
  label : String
  colorCode : String
deriving DecidableEq, Repr

/-- Modelled from the spec: the terminal reset escape code. -/
def ansiReset : String := "\x1b[0m"

/-- Modelled from the spec: `ANSI_STYLES`, the static terminal style table
keyed by log level, one row per level. -/
def ANSI_STYLES : List (LogLevel × AnsiStyleRow) :=
  [(LogLevel.success, ⟨"✔ ", "SUCCESS ", "\x1b[32m"⟩),
   (LogLevel.error, ⟨"✖ ", "ERROR ", "\x1b[31m"⟩),
   (LogLevel.warn, ⟨"⚠ ", "WARN ", "\x1b[33m"⟩),
   (LogLevel.info, ⟨"ℹ ", "INFO ", "\x1b[36m"⟩)]

/-- Modelled from the spec: `BROWSER_STYLES`, the static browser-console
style table keyed by log level, one CSS declaration string per level. -/
def BROWSER_STYLES : List (LogLevel × String) :=
  [(LogLevel.success, "color: #22c55e; font-weight: bold; padding: 2px 4px"),
   (LogLevel.error, "color: #ef4444; font-weight: bold; padding: 2px 4px"),
   (LogLevel.warn, "color: #eab308; font-weight: bold; padding: 2px 4px"),
   (LogLevel.info, "color: #06b6d4; font-weight: bold; padding: 2px 4px")]

/-- Modelled from the spec: the default/untagged terminal style a lookup
miss would fall back to. -/
def defaultAnsiRow : AnsiStyleRow := ⟨"", "", ""⟩

/-- Modelled from the spec: the terminal style row for a level, with the
default/untagged fallback on a lookup miss. -/
def ansiRowFor (level : LogLevel) : AnsiStyleRow :=
  (ANSI_STYLES.lookup level).getD defaultAnsiRow

/-- Modelled from the spec: the browser CSS style for a level, with the
default/untagged fallback on a lookup miss. -/
def browserStyleFor (level : LogLevel) : String :=
  (BROWSER_STYLES.lookup level).getD ""

/-- Modelled from the spec: the two console sinks, the standard output
channel and the error-classified channel. -/
inductive ConsoleChannel where
  | stdout
  | stderr
deriving DecidableEq, Repr

/-- Modelled from the spec: error levels use the error-classified console
channel; all others use the standard output channel. -/
def channelOf (level : LogLevel) : ConsoleChannel :=
  match level with
  | LogLevel.error => ConsoleChannel.stderr
  | _ => ConsoleChannel.stdout

/-- Modelled from the spec: one console write — a channel plus the argument
list handed to the console call (the browser variant passes the `%c` line
and the CSS style string as a separate argument). -/
structure ConsoleWrite where
  channel : ConsoleChannel
  args : List String
deriving DecidableEq, Repr

/-- Modelled from the spec: the formatted timestamp text prepended when
`showTimestamp` is on. -/
def timestampTag (h : HostEnv) : String := "[" ++ h.now ++ "] "

/-- Modelled from the spec: the console arguments for a line, before the
optional timestamp — terminal rendering composes
`colorCode + symbol + label + message + resetCode`; browser rendering uses
a `%c` placeholder followed by the style string as a separate argument;
an unknown runtime gets the untagged symbol/label text. -/
def bodyArgs (h : HostEnv) (level : LogLevel) (msg : String) : List String :=
  match detectEnvironment h with
  | RuntimeEnvironment.node =>
    let row := ansiRowFor level
    [row.colorCode ++ row.symbol ++ row.label ++ msg ++ ansiReset]
  | RuntimeEnvironment.browser =>
    let row := ansiRowFor level
    ["%c" ++ row.symbol ++ row.label ++ msg, browserStyleFor level]
  | RuntimeEnvironment.unknown =>
    let row := ansiRowFor level
    [row.symbol ++ row.label ++ msg]

/-- Modelled from the spec: the full console arguments for a line,
optionally prepending the formatted timestamp to the visible text. -/
def formatArgs (h : HostEnv) (showTs : Bool) (level : LogLevel) (msg : String) :
    List String :=
  match bodyArgs h level msg with
  | [] => []
  | a :: rest => (if showTs then timestampTag h ++ a else a) :: rest

/-- Modelled from the spec: the single internal-fault taxonomy
(InternalFault); here the platform console write is the fault source the
model exposes. -/
inductive InternalFault where
  | consoleFault
deriving DecidableEq, Repr

/-- Modelled from the spec: the unguarded body of a level method — check
the enabled flag, format, write one line to the level's console sink; the
platform console write itself may throw. -/
def logBody (h : HostEnv) (st : LoggerState) (level : LogLevel) (msg : String) :
    Except InternalFault (List ConsoleWrite) :=
  if st.enabled then
    if h.consoleFaults then Except.error InternalFault.consoleFault
    else Except.ok [⟨channelOf level, formatArgs h st.showTimestamp level msg⟩]
  else Except.ok []

/-- Modelled from the spec: a level method of the Logger — the single
scoped error-guard wraps the entire body; a caught fault is discarded
(the throwing write produced no output). -/
def Logger.levelMethod (h : HostEnv) (st : LoggerState) (level : LogLevel)
    (msg : String) : Except InternalFault (List ConsoleWrite) :=
  match logBody h st level msg with
  | Except.ok ws => Except.ok ws
  | Except.error _ => Except.ok []

/-- Modelled from the spec: `logger.success`. -/
def Logger.success (h : HostEnv) (st : LoggerState) (message : String) :
    Except InternalFault (List ConsoleWrite) :=
  Logger.levelMethod h st LogLevel.success message

/-- Modelled from the spec: `logger.error`. -/
def Logger.error (h : HostEnv) (st : LoggerState) (message : String) :
    Except InternalFault (List ConsoleWrite) :=
  Logger.levelMethod h st LogLevel.error message

/-- Modelled from the spec: `logger.warn`. -/
def Logger.warn (h : HostEnv) (st : LoggerState) (message : String) :
    Except InternalFault (List ConsoleWrite) :=
  Logger.levelMethod h st LogLevel.warn message

/-- Modelled from the spec: `logger.info`. -/
def Logger.info (h : HostEnv) (st : LoggerState) (message : String) :
    Except InternalFault (List ConsoleWrite) :=
  Logger.levelMethod h st LogLevel.info message

/-- Modelled from the spec: merge-update of the Logger state by a partial
config record — only provided fields are applied. -/
def Logger.applyConfig (st : LoggerState) (c : LoggerConfig) : LoggerState :=
  { enabled := c.enabled.getD st.enabled,
    showTimestamp := c.showTimestamp.getD st.showTimestamp }

/-- The in-process objects a method can return a reference to: the public
facade object `log` and the underlying `logger` singleton. -/
inductive ObjRef where
  | logObj
  | loggerObj
deriving DecidableEq, Repr

/-- Modelled from the spec: `logger.configure(options) → LoggerLike` —
merge-updates the singleton state and returns the logger itself. -/
def Logger.configure (st : LoggerState) (options : LoggerConfig) :
    LoggerState × ObjRef :=
  (Logger.applyConfig st options, ObjRef.loggerObj)

/-- From `index.ts`: `success: (message: string) => logger.success(message)`. -/
def log.success (h : HostEnv) (st : LoggerState) (message : String) :
    Except InternalFault (List ConsoleWrite) :=
  Logger.success h st message

/-- From `index.ts`: `error: (message: string) => logger.error(message)`. -/
def log.error (h : HostEnv) (st : LoggerState) (message : String) :
    Except InternalFault (List ConsoleWrite) :=
  Logger.error h st message

/-- From `index.ts`: `warn: (message: string) => logger.warn(message)`. -/
def log.warn (h : HostEnv) (st : LoggerState) (message : String) :
    Except InternalFault (List ConsoleWrite) :=
  Logger.warn h st message

/-- From `index.ts`: `info: (message: string) => logger.info(message)`. -/
def log.info (h : HostEnv) (st : LoggerState) (message : String) :
    Except InternalFault (List ConsoleWrite) :=
  Logger.info h st message

/-- From `index.ts`: `config: (options) => { logger.configure(options); return log; }`
— calls `logger.configure` once, discards its returned reference, and
returns the facade object `log` itself. -/
def log.config (st : LoggerState) (options : LoggerConfig) :
    LoggerState × ObjRef :=
  let r := Logger.configure st options
  (r.1, ObjRef.logObj)

/-- Dispatch a level-method call on a returned object reference: both the
facade object and the logger singleton expose the four level methods. -/
def callLevelOn (obj : ObjRef) (h : HostEnv) (st : LoggerState)
    (level : LogLevel) (msg : String) : Except InternalFault (List ConsoleWrite) :=
  match obj with
  | ObjRef.logObj =>
    match level with
    | LogLevel.success => log.success h st msg
    | LogLevel.error => log.error h st msg
    | LogLevel.warn => log.warn h st msg
    | LogLevel.info => log.info h st msg
  | ObjRef.loggerObj => Logger.levelMethod h st level msg

/-- A concrete development-style host environment used by the witnesses. -/
def sampleEnv : HostEnv :=
  { process := some { env := some [("NODE_ENV", "development")] },
    window := false,
    document := false,
    consoleFaults := false,
    now := "2026-10-11 12:00:00" }

lemma levelMethod_always_ok (h : HostEnv) (st : LoggerState) (level : LogLevel)
    (msg : String) : ∃ ws, Logger.levelMethod h st level msg = Except.ok ws := by
  unfold Logger.levelMethod
  cases logBody h st level msg with
  | ok ws => exact ⟨ws, rfl⟩
  | error e => exact ⟨[], rfl⟩

lemma bodyArgs_shape (h : HostEnv) (level : LogLevel) (msg : String) :
    ∃ a rest, bodyArgs h level msg = a :: rest := by
  unfold bodyArgs
  cases detectEnvironment h <;> exact ⟨_, _, rfl⟩

lemma formatArgs_decompose (h : HostEnv) (b : Bool) (level : LogLevel)
    (msg : String) :
    ∃ p q rest, formatArgs h b level msg = (p ++ msg ++ q) :: rest := by
  unfold formatArgs bodyArgs
  cases detectEnvironment h with
  | node =>
    cases b with
    | false =>
      refine ⟨(ansiRowFor level).colorCode ++ (ansiRowFor level).symbol ++
        (ansiRowFor level).label, ansiReset, [], ?_⟩
      simp [String.append_assoc]
    | true =>
      refine ⟨timestampTag h ++ ((ansiRowFor level).colorCode ++
        (ansiRowFor level).symbol ++ (ansiRowFor level).label), ansiReset, [], ?_⟩
      simp [String.append_assoc]
  | browser =>
    cases b with
    | false =>
      refine ⟨"%c" ++ (ansiRowFor level).symbol ++ (ansiRowFor level).label,
        "", [browserStyleFor level], ?_⟩
      simp [String.append_assoc]
    | true =>
      refine ⟨timestampTag h ++ ("%c" ++ (ansiRowFor level).symbol ++
        (ansiRowFor level).label), "", [browserStyleFor level], ?_⟩
      simp [String.append_assoc]
  | unknown =>
    cases b with
    | false =>
      refine ⟨(ansiRowFor level).symbol ++ (ansiRowFor level).label, "", [], ?_⟩
      simp [String.append_assoc]
    | true =>
      refine ⟨timestampTag h ++ ((ansiRowFor level).symbol ++
        (ansiRowFor level).label), "", [], ?_⟩
      simp [String.append_assoc]

/-- C1: for every input message and every host environment (including one
whose console write throws), each of the four level methods returns
normally — the guard catches any internal fault and discards it, so no
call ever propagates an exception to the caller.  Non-string inputs are
coerced to a string before reaching the logger, so quantifying over all
`String` messages covers them. -/
theorem level_methods_never_throw (h : HostEnv) (st : LoggerState) (msg : String) :
    (∃ ws, log.success h st msg = Except.ok ws) ∧
    (∃ ws, log.error h st msg = Except.ok ws) ∧
    (∃ ws, log.warn h st msg = Except.ok ws) ∧
    (∃ ws, log.info h st msg = Except.ok ws) :=
  ⟨levelMethod_always_ok h st LogLevel.success msg,
   levelMethod_always_ok h st LogLevel.error msg,
   levelMethod_always_ok h st LogLevel.warn msg,
   levelMethod_always_ok h st LogLevel.info msg⟩

lemma levelMethod_disabled (h : HostEnv) (st : LoggerState) (level : LogLevel)
    (msg : String) (hd : st.enabled = false) :
    Logger.levelMethod h st level msg = Except.ok [] := by
  simp [Logger.levelMethod, logBody, hd]

/-- C2: with the enabled flag false, each of the four level methods
performs zero console writes, for every message and host environment. -/
theorem disabled_level_methods_write_nothing (h : HostEnv) (st : LoggerState)
    (msg : String) (hd : st.enabled = false) :
    log.success h st msg = Except.ok [] ∧
    log.error h st msg = Except.ok [] ∧
    log.warn h st msg = Except.ok [] ∧
    log.info h st msg = Except.ok [] :=
  ⟨levelMethod_disabled h st LogLevel.success msg hd,
   levelMethod_disabled h st LogLevel.error msg hd,
   levelMethod_disabled h st LogLevel.warn msg hd,
   levelMethod_disabled h st LogLevel.info msg hd⟩

theorem disabled_level_methods_write_nothing_witness :
    log.success sampleEnv ⟨false, false⟩ "hello" = Except.ok [] ∧
    log.error sampleEnv ⟨false, false⟩ "hello" = Except.ok [] ∧
    log.warn sampleEnv ⟨false, false⟩ "hello" = Except.ok [] ∧
    log.info sampleEnv ⟨false, false⟩ "hello" = Except.ok [] :=
  disabled_level_methods_write_nothing sampleEnv ⟨false, false⟩ "hello" rfl

/-- C3: with the enabled flag true (and the platform console accepting the
write), a level call performs exactly one console write, and the first
console argument — the visible line — contains the message text verbatim
as a contiguous substring. -/
theorem enabled_level_method_writes_once_verbatim (h : HostEnv)
    (st : LoggerState) (level : LogLevel) (msg : String)
    (hen : st.enabled = true) (hcf : h.consoleFaults = false) (hm : msg ≠ "") :
    ∃ w, Logger.levelMethod h st level msg = Except.ok [w] ∧
      ∃ p q rest, w.args = (p ++ msg ++ q) :: rest := by
  obtain ⟨p, q, rest, hfa⟩ := formatArgs_decompose h st.showTimestamp level msg
  refine ⟨⟨channelOf level, formatArgs h st.showTimestamp level msg⟩, ?_,
    p, q, rest, hfa⟩
  simp [Logger.levelMethod, logBody, hen, hcf]

theorem enabled_level_method_writes_once_verbatim_witness :
    ∃ w, Logger.levelMethod sampleEnv ⟨true, false⟩ LogLevel.info "hello"
        = Except.ok [w] ∧
      ∃ p q rest, w.args = (p ++ "hello" ++ q) :: rest :=
  enabled_level_method_writes_once_verbatim sampleEnv ⟨true, false⟩
    LogLevel.info "hello" rfl rfl (by decide)

/-- C4: before any configure call, the default enabled flag is false
exactly when the runtime is server-like with NODE_ENV equal to
"production"; in every other situation (variable absent, another value,
non-server runtime) it is true — and the default showTimestamp flag is
always false. -/
theorem default_enabled_iff_not_production (h : HostEnv) :
    ((defaultLoggerState h).enabled = false ↔
      (detectEnvironment h = RuntimeEnvironment.node ∧
        nodeEnvValue h = some "production")) ∧
    ((defaultLoggerState h).enabled = true ↔
      ¬(detectEnvironment h = RuntimeEnvironment.node ∧
        nodeEnvValue h = some "production")) ∧
    (defaultLoggerState h).showTimestamp = false := by
  have hprod : isProductionMode h = true ↔
      (detectEnvironment h = RuntimeEnvironment.node ∧
        nodeEnvValue h = some "production") := by
    unfold isProductionMode
    cases hd : detectEnvironment h <;> simp [hd]
  have henab : (defaultLoggerState h).enabled = !(isProductionMode h) := rfl
  refine ⟨?_, ?_, rfl⟩
  · rw [henab, ← hprod]
    cases isProductionMode h <;> simp
  · rw [henab, ← hprod]
    cases isProductionMode h <;> simp

/-- C5: `configure` has merge semantics — a field present in the partial
config record is applied and a field omitted (`none`) keeps its prior
value; and setting `showTimestamp` to true makes a subsequent level call
emit its line with the timestamp text prepended, while setting it to
false emits the identical line without it. -/
theorem configure_merge_semantics (st : LoggerState) (c : LoggerConfig)
    (h : HostEnv) (level : LogLevel) (msg : String) :
    (c.enabled = none → (Logger.applyConfig st c).enabled = st.enabled) ∧
    (c.showTimestamp = none →
      (Logger.applyConfig st c).showTimestamp = st.showTimestamp) ∧
    (c.enabled = some true → (Logger.applyConfig st c).enabled = true) ∧
    (c.enabled = some false → (Logger.applyConfig st c).enabled = false) ∧
    (c.showTimestamp = some true →
      (Logger.applyConfig st c).showTimestamp = true) ∧
    (c.showTimestamp = some false →
      (Logger.applyConfig st c).showTimestamp = false) ∧
    (st.enabled = true → h.consoleFaults = false →
      ∃ ch p rest,
        Logger.levelMethod h (Logger.applyConfig st ⟨none, some true⟩) level msg
          = Except.ok [⟨ch, (timestampTag h ++ p) :: rest⟩] ∧
        Logger.levelMethod h (Logger.applyConfig st ⟨none, some false⟩) level msg
          = Except.ok [⟨ch, p :: rest⟩]) := by
  refine ⟨?_, ?_, ?_, ?_, ?_, ?_, ?_⟩
  · intro he; simp [Logger.applyConfig, he]
  · intro hts; simp [Logger.applyConfig, hts]
  · intro he; simp [Logger.applyConfig, he]
  · intro he; simp [Logger.applyConfig, he]
  · intro hts; simp [Logger.applyConfig, hts]
  · intro hts; simp [Logger.applyConfig, hts]
  · intro hen hcf
    obtain ⟨a, rest, hba⟩ := bodyArgs_shape h level msg
    refine ⟨channelOf level, a, rest, ?_, ?_⟩
    · simp [Logger.levelMethod, logBody, Logger.applyConfig, hen, hcf,
        formatArgs, hba]
    · simp [Logger.levelMethod, logBody, Logger.applyConfig, hen, hcf,
        formatArgs, hba]

theorem configure_merge_semantics_witness :
    (Logger.applyConfig ⟨true, true⟩ ⟨none, none⟩).enabled = true ∧
    (Logger.applyConfig ⟨true, true⟩ ⟨none, none⟩).showTimestamp = true ∧
    (Logger.applyConfig ⟨false, false⟩ ⟨some true, none⟩).enabled = true ∧
    (Logger.applyConfig ⟨true, false⟩ ⟨some false, none⟩).enabled = false ∧
    (Logger.applyConfig ⟨true, false⟩ ⟨none, some true⟩).showTimestamp = true ∧
    (Logger.applyConfig ⟨true, true⟩ ⟨none, some false⟩).showTimestamp = false ∧
    (∃ ch p rest,
      Logger.levelMethod sampleEnv
          (Logger.applyConfig ⟨true, false⟩ ⟨none, some true⟩) LogLevel.info "hi"
        = Except.ok [⟨ch, (timestampTag sampleEnv ++ p) :: rest⟩] ∧
      Logger.levelMethod sampleEnv
          (Logger.applyConfig ⟨true, false⟩ ⟨none, some false⟩) LogLevel.info "hi"
        = Except.ok [⟨ch, p :: rest⟩]) :=
  ⟨(configure_merge_semantics ⟨true, true⟩ ⟨none, none⟩ sampleEnv
      LogLevel.info "hi").1 rfl,
   (configure_merge_semantics ⟨true, true⟩ ⟨none, none⟩ sampleEnv
      LogLevel.info "hi").2.1 rfl,
   (configure_merge_semantics ⟨false, false⟩ ⟨some true, none⟩ sampleEnv
      LogLevel.info "hi").2.2.1 rfl,
   (configure_merge_semantics ⟨true, false⟩ ⟨some false, none⟩ sampleEnv
      LogLevel.info "hi").2.2.2.1 rfl,
   (configure_merge_semantics ⟨true, false⟩ ⟨none, some true⟩ sampleEnv
      LogLevel.info "hi").2.2.2.2.1 rfl,
   (configure_merge_semantics ⟨true, true⟩ ⟨none, some false⟩ sampleEnv
      LogLevel.info "hi").2.2.2.2.2.1 rfl,
   (configure_merge_semantics ⟨true, false⟩ ⟨none, none⟩ sampleEnv
      LogLevel.info "hi").2.2.2.2.2.2 rfl rfl⟩

/-- C6: `detectEnvironment` always yields exactly one of the three runtime
tags (it is a total function of the observed globals, hence never throws
and is deterministic), and follows the decision policy: server-like iff a
usable process/env pair exists; browser-like iff no usable process but
the window/document pair exists; unknown iff neither probe succeeds. -/
theorem detectEnvironment_total_policy (h : HostEnv) :
    (detectEnvironment h = RuntimeEnvironment.node ∨
      detectEnvironment h = RuntimeEnvironment.browser ∨
      detectEnvironment h = RuntimeEnvironment.unknown) ∧
    (detectEnvironment h = RuntimeEnvironment.node ↔ hasUsableProcess h = true) ∧
    (detectEnvironment h = RuntimeEnvironment.browser ↔
      (hasUsableProcess h = false ∧ (h.window && h.document) = true)) ∧
    (detectEnvironment h = RuntimeEnvironment.unknown ↔
      (hasUsableProcess h = false ∧ (h.window && h.document) = false)) := by
  cases hp : hasUsableProcess h <;> cases hw : h.window && h.document <;>
    simp [detectEnvironment, hp, hw]

/-- C7: `log.config` returns the facade object `log` itself, so a level
method dispatched on the returned reference (in the post-configure state)
is exactly a logger level call in that state, and a further `config` call
can be chained the same way. -/
theorem config_returns_facade_for_chaining (st : LoggerState)
    (options : LoggerConfig) (h : HostEnv) (level : LogLevel) (msg : String) :
    (log.config st options).2 = ObjRef.logObj ∧
    callLevelOn (log.config st options).2 h (log.config st options).1 level msg
      = Logger.levelMethod h (Logger.applyConfig st options) level msg ∧
    (log.config (log.config st options).1 options).2 = ObjRef.logObj := by
  refine ⟨rfl, ?_, rfl⟩
  cases level <;> rfl

/-- C8: with the enabled flag true and a functioning console, a level call
produces exactly one console write — its only observable effect — and
that write goes to the error-classified channel for the error level and
to the standard output channel for success, warn and info. -/
theorem level_channel_routing (h : HostEnv) (st : LoggerState)
    (level : LogLevel) (msg : String)
    (hen : st.enabled = true) (hcf : h.consoleFaults = false) :
    (∃ args, Logger.levelMethod h st level msg
      = Except.ok [⟨channelOf level, args⟩]) ∧
    channelOf LogLevel.error = ConsoleChannel.stderr ∧
    channelOf LogLevel.success = ConsoleChannel.stdout ∧
    channelOf LogLevel.warn = ConsoleChannel.stdout ∧
    channelOf LogLevel.info = ConsoleChannel.stdout := by
  refine ⟨⟨formatArgs h st.showTimestamp level msg, ?_⟩, rfl, rfl, rfl, rfl⟩
  simp [Logger.levelMethod, logBody, hen, hcf]

theorem level_channel_routing_witness :
    (∃ args, Logger.levelMethod sampleEnv ⟨true, false⟩ LogLevel.error "boom"
      = Except.ok [⟨channelOf LogLevel.error, args⟩]) ∧
    channelOf LogLevel.error = ConsoleChannel.stderr ∧
    channelOf LogLevel.success = ConsoleChannel.stdout ∧
    channelOf LogLevel.warn = ConsoleChannel.stdout ∧
    channelOf LogLevel.info = ConsoleChannel.stdout :=
  level_channel_routing sampleEnv ⟨true, false⟩ LogLevel.error "boom" rfl rfl

/-- C9: each of the four log levels has exactly one row in the terminal
style table and exactly one row in the browser style table, so a style
lookup for a valid level never misses. -/
theorem style_tables_total_one_row_each (level : LogLevel) :
    ANSI_STYLES.countP (fun r => r.1 == level) = 1 ∧
    BROWSER_STYLES.countP (fun r => r.1 == level) = 1 ∧
    (ANSI_STYLES.lookup level).isSome = true ∧
    (BROWSER_STYLES.lookup level).isSome = true := by
  cases level <;> exact ⟨by decide, by decide, by decide, by decide⟩

/-- C10: the facade is a pure pass-through — each facade level method
equals the corresponding logger level method (which is the shared
level-method body at the matching level tag, forwarding the message
unchanged), and `log.config` forwards its options to `logger.configure`
exactly, propagating the resulting state while discarding the returned
reference. -/
theorem facade_pass_through (h : HostEnv) (st : LoggerState) (msg : String)
    (options : LoggerConfig) :
    log.success h st msg = Logger.success h st msg ∧
    log.error h st msg = Logger.error h st msg ∧
    log.warn h st msg = Logger.warn h st msg ∧
    log.info h st msg = Logger.info h st msg ∧
    Logger.success h st msg = Logger.levelMethod h st LogLevel.success msg ∧
    Logger.error h st msg = Logger.levelMethod h st LogLevel.error msg ∧
    Logger.warn h st msg = Logger.levelMethod h st LogLevel.warn msg ∧
    Logger.info h st msg = Logger.levelMethod h st LogLevel.info msg ∧
    (log.config st options).1 = (Logger.configure st options).1 :=
  ⟨rfl, rfl, rfl, rfl, rfl, rfl, rfl, rfl, rfl⟩
